import Mathlib

/-!
Shallow embedding of the reactive computation and object-reference core of
the nionswift repository: Symbolic.py (ComputationVariable,
ComputationOutput, Computation), Changes.py (UndeleteLog), Project.py
(Project) and DataStructure.py (get_object_specifier). Python dicts are
association lists with unique keys in insertion order, machine objects are
identified by natural-number ids, exceptions are modelled with Except, and
the external evaluator and resolution context are abstracted as functions.
-/

namespace NionSwift

/-- Python scalar values used for variable values and defaults. -/
inductive PyVal where
  | pybool (b : Bool)
  | pyint (n : Int)
  | pyfloat (q : Rat)
  | pycomplex (re im : Rat)
  | pystr (s : String)
  deriving DecidableEq, Repr

/-- Values stored in a specifier dict. -/
inductive SpecValue where
  | intVal (n : Int)
  | strVal (s : String)
  | noneVal
  | pyVal (v : PyVal)
  deriving DecidableEq, Repr

/-- Specifier dicts: association lists with unique keys in insertion order. -/
abbrev Spec := List (String × SpecValue)

/-- Python dict get: the value at a key, if present. -/
def Spec.get (d : Spec) (k : String) : Option SpecValue :=
  (d.find? (fun kv => kv.1 == k)).map (fun kv => kv.2)

/-- Python dict assignment: replace the value in place when the key exists,
else append the pair at the end. -/
def Spec.set (d : Spec) (k : String) (v : SpecValue) : Spec :=
  if d.any (fun kv => kv.1 == k) then
    d.map (fun kv => if kv.1 == k then (k, v) else kv)
  else d ++ [(k, v)]

/-- Python dict pop with a default: remove the key when present. -/
def Spec.pop (d : Spec) (k : String) : Spec :=
  d.filter (fun kv => kv.1 != k)

/-- Python truthiness of an optional dict: None and the empty dict are falsy. -/
def specTruthy : Option Spec → Bool
  | none => false
  | some d => !d.isEmpty

/-- Python truthiness of an optional list of specifiers. -/
def listTruthy : Option (List Spec) → Bool
  | none => false
  | some l => !l.isEmpty

/-- Python truthiness of a value read from a specifier dict. -/
def svTruthy : Option SpecValue → Bool
  | none => false
  | some (.intVal n) => !(n == 0)
  | some (.strVal s) => !(s == "")
  | some .noneVal => false
  | some (.pyVal (.pybool b)) => b
  | some (.pyVal (.pyint n)) => !(n == 0)
  | some (.pyVal (.pyfloat q)) => !(q == 0)
  | some (.pyVal (.pycomplex re im)) => !(re == 0 && im == 0)
  | some (.pyVal (.pystr s)) => !(s == "")

/-- A value produced by resolving a bound item: a library object or the
scalar pass-through value of a value-typed variable; None is dangling. -/
inductive ResolvedValue where
  | obj (id : Nat)
  | scalar (v : PyVal)
  deriving DecidableEq, Repr

/-- The bound item owned by a ComputationVariable: a live handle whose value
attribute is the referenced object, or None when dangling. -/
structure VarBoundItem where
  value : Option ResolvedValue
  deriving DecidableEq, Repr

/-- A bound item resolved for a ComputationOutput from one specifier. -/
structure OutItem where
  value : Nat
  deriving DecidableEq, Repr

/-- The bound_item attribute of a ComputationOutput: a single bound item
(specifier case) or a Python list of bound items (specifiers case). -/
inductive OutBound where
  | single (b : OutItem)
  | items (bs : List OutItem)
  deriving DecidableEq, Repr

/-- Python truthiness of an output bound_item attribute: None is falsy, a
bound item object is truthy, a list is truthy iff it is nonempty. -/
def outBoundTruthy : Option OutBound → Bool
  | none => false
  | some (.single _) => true
  | some (.items bs) => !bs.isEmpty

/-- Python all() over an output bound_item attribute: iterating None or a
single non-iterable bound item raises TypeError; over a list of bound items
every element is an object, hence truthy, so the result is vacuously true. -/
def outBoundAll : Option OutBound → Except String Bool
  | some (.items bs) => .ok (bs.all (fun _ => true))
  | some (.single _) => .error "TypeError: object is not iterable"
  | none => .error "TypeError: NoneType is not iterable"

/-- Whether an output bound_item attribute currently holds a Python list. -/
def boundIsItems : Option OutBound → Bool
  | some (.items _) => true
  | _ => false

/-- ComputationVariable from Symbolic.py: the persisted slots plus the bound
item. Events and the objects list model are not needed by the claims under
study and are omitted. -/
structure ComputationVariable where
  uuid : Nat
  name : Option String := none
  label : Option String := none
  value_type : Option String := none
  value : Option PyVal := none
  value_default : Option PyVal := none
  value_min : Option PyVal := none
  value_max : Option PyVal := none
  specifier : Option Spec := none
  secondary_specifier : Option Spec := none
  property_name : Option String := none
  control_type : Option String := none
  bound_item : Option VarBoundItem := none
  deriving DecidableEq, Repr

/-- ComputationOutput from Symbolic.py. -/
structure ComputationOutput where
  uuid : Nat
  name : Option String := none
  label : Option String := none
  specifier : Option Spec := none
  specifiers : Option (List Spec) := none
  bound_item : Option OutBound := none
  deriving DecidableEq, Repr

/-- ComputationOutput.bind from Symbolic.py: resolve the truthy scalar
specifier, or resolve each entry of the specifiers list and keep only the
bound items that resolved (failures are silently dropped), or clear the
bound item. -/
def ComputationOutput.bind (r : ComputationOutput) (resolve : Spec → Option OutItem) :
    ComputationOutput :=
  if specTruthy r.specifier then
    { r with bound_item := (resolve (r.specifier.getD [])).map OutBound.single }
  else
    match r.specifiers with
    | some specs => { r with bound_item := some (OutBound.items (specs.filterMap resolve)) }
    | none => { r with bound_item := none }

/-- Computation from Symbolic.py: persisted properties, the ordered variables
and results, the update flag, the test evaluation counter, the evaluation
timestamp, and the three listener dicts (modelled by the uuids they hold)
that __bind_variable and __bind_result populate. -/
structure Computation where
  original_expression : Option String := none
  error_text : Option String := none
  label : Option String := none
  processing_id : Option String := none
  variableList : List ComputationVariable := []
  results : List ComputationOutput := []
  last_evaluate_data_time : Nat := 0
  needs_update : Bool := false
  evaluation_count : Nat := 0
  variable_changed_listeners : List Nat := []
  variable_rebind_listeners : List Nat := []
  result_rebind_listeners : List Nat := []
  deriving DecidableEq, Repr

/-- The result half of Computation.is_resolved: returns False as soon as a
result with a truthy scalar specifier has a falsy bound item, or a truthy
specifiers list fails all(); all() raises when bound_item is not a list. -/
def resultsResolved : List ComputationOutput → Except String Bool
  | [] => .ok true
  | r :: rest =>
    if specTruthy r.specifier && !outBoundTruthy r.bound_item then .ok false
    else if listTruthy r.specifiers then
      match outBoundAll r.bound_item with
      | .error e => .error e
      | .ok b => if !b then .ok false else resultsResolved rest
    else resultsResolved rest

/-- Computation.is_resolved from Symbolic.py. -/
def Computation.is_resolved (c : Computation) : Except String Bool :=
  if !(c.variableList.all (fun v => !specTruthy v.specifier || v.bound_item.isSome)) then
    .ok false
  else resultsResolved c.results

/-- Keyword arguments assembled for the evaluator: a Python dict keyed by
variable names. -/
abbrev Kwargs := List (Option String × Option ResolvedValue)

/-- Python dict assignment on the kwargs dict. -/
def kwargsSet (d : Kwargs) (k : Option String) (v : Option ResolvedValue) : Kwargs :=
  if d.any (fun kv => kv.1 == k) then
    d.map (fun kv => if kv.1 == k then (k, v) else kv)
  else d ++ [(k, v)]

/-- The variable loop of Computation.__resolve_inputs: every variable with a
bound item contributes its resolved value to kwargs, and the is_resolved
flag is assigned afresh on every iteration, so only the last variable
examined determines the contribution of the loop. -/
def resolveVars : List ComputationVariable → Kwargs → Bool → Kwargs × Bool
  | [], kwargs, flag => (kwargs, flag)
  | v :: rest, kwargs, _flag =>
    match v.bound_item with
    | some b => resolveVars rest (kwargsSet kwargs v.name b.value) b.value.isSome
    | none => resolveVars rest kwargs false

/-- The result loop of Computation.__resolve_inputs: unlike the is_resolved
property it does not return early, so a later malformed result still
raises. -/
def resolveResults : List ComputationOutput → Bool → Except String Bool
  | [], flag => .ok flag
  | r :: rest, flag =>
    let flag1 := if specTruthy r.specifier && !outBoundTruthy r.bound_item then false else flag
    if listTruthy r.specifiers then
      match outBoundAll r.bound_item with
      | .error e => .error e
      | .ok b => resolveResults rest (if !b then false else flag1)
    else resolveResults rest flag1

/-- Computation.__resolve_inputs from Symbolic.py. -/
def Computation.resolveInputs (c : Computation) : Except String (Kwargs × Bool) :=
  match resolveResults c.results (resolveVars c.variableList [] true).2 with
  | .error e => .error e
  | .ok b => .ok ((resolveVars c.variableList [] true).1, b)

/-- A registered compute class: constructing it and running execute may raise,
modelled by an exception message. -/
structure ComputeClass where
  execute : Kwargs → Except String Unit

/-- The module-level _computation_types registry of Symbolic.py, a dict with
string keys built by register_computation_type. -/
abbrev ComputationTypes := List (String × ComputeClass)

/-- register_computation_type from Symbolic.py. -/
def register_computation_type (reg : ComputationTypes) (computation_type_id : String)
    (compute_class : ComputeClass) : ComputationTypes :=
  if reg.any (fun kv => kv.1 == computation_type_id) then
    reg.map (fun kv => if kv.1 == computation_type_id then (computation_type_id, compute_class) else kv)
  else reg ++ [(computation_type_id, compute_class)]

/-- Python dict get on the registry: a None processing id is never a key. -/
def computationTypesGet (reg : ComputationTypes) (pid : Option String) : Option ComputeClass :=
  match pid with
  | some s => (reg.find? (fun kv => kv.1 == s)).map (fun kv => kv.2)
  | none => none

/-- The two statements at the end of the needs_update branch of
Computation.evaluate: bump the test counter and record the evaluation time. -/
def Computation.recordEvaluation (now : Nat) (c : Computation) : Computation :=
  { c with evaluation_count := c.evaluation_count + 1, last_evaluate_data_time := now }

/-- Computation.evaluate from Symbolic.py. The first component is the pair
(compute object, error text) the method returns, wrapped in Except for the
exceptions that escape it; the second component is the state of the
computation afterwards. The argument now stands for time.perf_counter(). -/
def Computation.evaluate (reg : ComputationTypes) (now : Nat) (c0 : Computation) :
    Except String (Option ComputeClass × Option String) × Computation :=
  let needsUpdate := c0.needs_update
  let c := { c0 with needs_update := false }
  if needsUpdate then
    match c.resolveInputs with
    | .error e => (.error e, c)
    | .ok (kwargs, is_resolved) =>
      if is_resolved then
        match computationTypesGet reg c.processing_id with
        | some compute_class =>
          match compute_class.execute kwargs with
          | .ok _ => (.ok (some compute_class, none), c.recordEvaluation now)
          | .error msg =>
            (.ok (none, some (if msg == "" then "Unable to evaluate script." else msg)),
              c.recordEvaluation now)
        | none =>
          match c.processing_id with
          | some pid =>
            (.ok (none, some ("Missing computation (" ++ pid ++ ").")), c.recordEvaluation now)
          | none => (.error "TypeError: can only concatenate str to str", c)
      else (.ok (none, some "Missing parameters."), c.recordEvaluation now)
  else (.ok (none, none), c)

/-- Computation.mark_update from Symbolic.py: the new state and the events
fired. -/
def Computation.mark_update (c : Computation) : Computation × List String :=
  ({ c with needs_update := true }, ["computation_mutated_event"])

/-- The Computation.expression property setter from Symbolic.py: the new
state and the events fired. -/
def Computation.setExpression (c : Computation) (value : Option String) :
    Computation × List String :=
  if value != c.original_expression then
    ({ c with original_expression := value, processing_id := none, needs_update := true },
      ["computation_mutated_event"])
  else (c, [])

/-- Computation.__unbind_variable from Symbolic.py: close and delete the two
listener dict entries for the variable (a KeyError when an entry is absent,
as on a never-bound computation) and clear the bound item of the variable. -/
def Computation.unbindVariable (c : Computation) (u : Nat) : Except String Computation :=
  if u ∈ c.variable_changed_listeners then
    if u ∈ c.variable_rebind_listeners then
      .ok { c with
        variable_changed_listeners := c.variable_changed_listeners.erase u,
        variable_rebind_listeners := c.variable_rebind_listeners.erase u,
        variableList := c.variableList.map (fun v =>
          if v.uuid == u then { v with bound_item := none } else v) }
    else .error "KeyError"
  else .error "KeyError"

/-- Computation.__unbind_result from Symbolic.py. -/
def Computation.unbindResult (c : Computation) (u : Nat) : Except String Computation :=
  if u ∈ c.result_rebind_listeners then
    .ok { c with
      result_rebind_listeners := c.result_rebind_listeners.erase u,
      results := c.results.map (fun r =>
        if r.uuid == u then { r with bound_item := none } else r) }
  else .error "KeyError"

/-- Computation.unbind from Symbolic.py: unbind every variable, then every
result. -/
def Computation.unbind (c : Computation) : Except String Computation := do
  let c1 ← (c.variableList.map (fun v => v.uuid)).foldlM Computation.unbindVariable c
  (c1.results.map (fun r => r.uuid)).foldlM Computation.unbindResult c1

/-- Computation.__bind_variable from Symbolic.py, with the resolution of the
variable specifier through the computation context abstracted as resolveV:
register the changed and needs-rebind listeners and store the resolved bound
item on the variable. -/
def Computation.bindVariable (resolveV : ComputationVariable → Option VarBoundItem)
    (c : Computation) (u : Nat) : Computation :=
  { c with
    variable_changed_listeners := c.variable_changed_listeners ++ [u],
    variable_rebind_listeners := c.variable_rebind_listeners ++ [u],
    variableList := c.variableList.map (fun v =>
      if v.uuid == u then { v with bound_item := resolveV v } else v) }

/-- Computation.__bind_result from Symbolic.py: register the needs-rebind
listener and run ComputationOutput.bind. -/
def Computation.bindResult (resolveO : Spec → Option OutItem)
    (c : Computation) (u : Nat) : Computation :=
  { c with
    result_rebind_listeners := c.result_rebind_listeners ++ [u],
    results := c.results.map (fun r => if r.uuid == u then r.bind resolveO else r) }

/-- Computation.bind from Symbolic.py, with the enclosing context abstracted:
assert that no variable or result is already bound, then bind every variable
and every result. -/
def Computation.bindAll (resolveV : ComputationVariable → Option VarBoundItem)
    (resolveO : Spec → Option OutItem) (c : Computation) : Except String Computation :=
  if c.variableList.all (fun v => v.bound_item == none)
      && c.results.all (fun r => r.bound_item == none) then
    let c1 := (c.variableList.map (fun v => v.uuid)).foldl (Computation.bindVariable resolveV) c
    .ok ((c1.results.map (fun r => r.uuid)).foldl (Computation.bindResult resolveO) c1)
  else .error "AssertionError"

/-- An undelete record: the undelete(document model) method of UndeleteBase
in Changes.py, with the document model abstracted as a state type. -/
structure UndeleteBase (α : Type) where
  undelete : α → α

/-- UndeleteLog from Changes.py. -/
structure UndeleteLog (α : Type) where
  items : List (UndeleteBase α)

/-- UndeleteLog.append from Changes.py. -/
def UndeleteLog.append {α : Type} (log : UndeleteLog α) (item : UndeleteBase α) :
    UndeleteLog α :=
  { items := log.items ++ [item] }

/-- UndeleteLog.undelete_all from Changes.py: run every entry over the
reversed items list, threading the document model through. -/
def UndeleteLog.undelete_all {α : Type} (log : UndeleteLog α) (dm : α) : α :=
  log.items.reverse.foldl (fun d entry => entry.undelete d) dm

/-- An undelete record over a trace document model that logs the id of every
record replayed, in order. -/
def traceRecord (n : Nat) : UndeleteBase (List Nat) :=
  { undelete := fun dm => dm ++ [n] }

/-- ComputationVariable.control_type_default from Symbolic.py. -/
def control_type_default (value_type : String) : Option String :=
  if value_type == "boolean" then some "checkbox"
  else if value_type == "integral" then some "slider"
  else if value_type == "real" then some "field"
  else if value_type == "complex" then some "field"
  else if value_type == "string" then some "field"
  else none

/-- The default value the variable_type setter assigns for a scalar kind:
True, 0, 0.0, 0 + 0j, or None for the string kind. -/
def scalar_value_default (value_type : String) : Option PyVal :=
  if value_type == "boolean" then some (.pybool true)
  else if value_type == "integral" then some (.pyint 0)
  else if value_type == "real" then some (.pyfloat 0)
  else if value_type == "complex" then some (.pycomplex 0 0)
  else none

/-- The ComputationVariable.variable_type property getter from Symbolic.py:
the value type when set, else the property or type tag of the specifier. -/
def ComputationVariable.variable_type (v : ComputationVariable) : Option SpecValue :=
  match v.value_type with
  | some t => some (.strVal t)
  | none =>
    match v.specifier with
    | some s =>
      let p := Spec.get s "property"
      if svTruthy p then p else Spec.get s "type"
    | none => none

/-- Whether the first character list occurs at the start of the second. -/
def charsAtStart : List Char → List Char → Bool
  | [], _ => true
  | _ :: _, [] => false
  | c :: cs, d :: ds => c == d && charsAtStart cs ds

/-- Python substring containment, the in operator on two strings, on the
underlying character lists. -/
def charsWithin : List Char → List Char → Bool
  | sub, [] => charsAtStart sub []
  | sub, d :: ds => charsAtStart sub (d :: ds) || charsWithin sub ds

/-- Python substring containment between strings. -/
def strWithin (sub big : String) : Bool :=
  charsWithin sub.data big.data

/-- The fresh dict the setter builds where the source writes a version-one
specifier literal. -/
def versionOneSpec : Spec := [("version", .intVal 1)]

/-- Python or on an optional dict: the dict itself when truthy, else the
fallback. -/
def specOrDefault (d : Option Spec) (dflt : Spec) : Spec :=
  match d with
  | some s => if s.isEmpty then dflt else s
  | none => dflt

/-- The data_item_types tuple of ComputationVariable in Symbolic.py. -/
def data_item_types : List String := ["data_item", "data", "display_data"]

/-- The ComputationVariable.variable_type property setter from Symbolic.py,
as a state transformation. Note that the membership test of the last branch
is written in the source as value_type in a plain string, which in Python is
substring containment in the word graphic. -/
def ComputationVariable.setVariableType (v : ComputationVariable) (value_type : String) :
    ComputationVariable :=
  if some (SpecValue.strVal value_type) == v.variable_type then v
  else if value_type ∈ ["boolean", "integral", "real", "complex", "string"] then
    { v with specifier := none, secondary_specifier := none,
             value_type := some value_type,
             control_type := control_type_default value_type,
             value_default := scalar_value_default value_type,
             value_min := none, value_max := none }
  else if value_type ∈ data_item_types then
    let specifier0 := specOrDefault v.specifier versionOneSpec
    let specifier1 :=
      if (match Spec.get specifier0 "type" with
          | some (.strVal t) => data_item_types.contains t
          | _ => false)
      then specifier0 else Spec.pop specifier0 "uuid"
    let specifier2 := Spec.set specifier1 "type" (.strVal "data_source")
    let specifier3 :=
      if value_type ∈ ["data", "display_data"]
      then Spec.set specifier2 "property" (.strVal value_type)
      else Spec.pop specifier2 "property"
    { v with value_type := none, control_type := none, value_default := none,
             value_min := none, value_max := none,
             specifier := some specifier3,
             secondary_specifier := some (specOrDefault v.secondary_specifier versionOneSpec) }
  else if strWithin value_type "graphic" then
    let specifier0 := specOrDefault v.specifier versionOneSpec
    let specifier1 := Spec.pop (Spec.pop (Spec.set specifier0 "type" (.strVal value_type)) "uuid") "property"
    { v with value_type := none, control_type := none, value_default := none,
             value_min := none, value_max := none,
             specifier := some specifier1,
             secondary_specifier := none }
  else v

/-- An entity held by one of the five Project collections, identified by its
uuid. -/
structure ProjectItem where
  uuid : Nat
  deriving DecidableEq, Repr

/-- Project from Project.py: the five ordered top-level collections. -/
structure Project where
  data_items : List ProjectItem := []
  display_items : List ProjectItem := []
  data_structures : List ProjectItem := []
  computations : List ProjectItem := []
  connections : List ProjectItem := []
  deriving DecidableEq, Repr

/-- The uuids of a collection, as the set comprehensions of Project.py build
them. -/
def uuidsOf (l : List ProjectItem) : List Nat :=
  l.map ProjectItem.uuid

/-- Project.append_data_item from Project.py: assert that the uuid is not
already present, then append; a failed assertion is none. -/
def Project.append_data_item (p : Project) (x : ProjectItem) : Option Project :=
  if x.uuid ∈ uuidsOf p.data_items then none
  else some { p with data_items := p.data_items ++ [x] }

/-- Project.append_display_item from Project.py. -/
def Project.append_display_item (p : Project) (x : ProjectItem) : Option Project :=
  if x.uuid ∈ uuidsOf p.display_items then none
  else some { p with display_items := p.display_items ++ [x] }

/-- Project.append_data_structure from Project.py. -/
def Project.append_data_structure (p : Project) (x : ProjectItem) : Option Project :=
  if x.uuid ∈ uuidsOf p.data_structures then none
  else some { p with data_structures := p.data_structures ++ [x] }

/-- Project.append_computation from Project.py. -/
def Project.append_computation (p : Project) (x : ProjectItem) : Option Project :=
  if x.uuid ∈ uuidsOf p.computations then none
  else some { p with computations := p.computations ++ [x] }

/-- Project.append_connection from Project.py. -/
def Project.append_connection (p : Project) (x : ProjectItem) : Option Project :=
  if x.uuid ∈ uuidsOf p.connections then none
  else some { p with connections := p.connections ++ [x] }

/-- Project.remove_data_item from Project.py. -/
def Project.remove_data_item (p : Project) (x : ProjectItem) : Project :=
  { p with data_items := p.data_items.erase x }

/-- Project.remove_display_item from Project.py. -/
def Project.remove_display_item (p : Project) (x : ProjectItem) : Project :=
  { p with display_items := p.display_items.erase x }

/-- Project.remove_data_structure from Project.py. -/
def Project.remove_data_structure (p : Project) (x : ProjectItem) : Project :=
  { p with data_structures := p.data_structures.erase x }

/-- Project.remove_computation from Project.py. -/
def Project.remove_computation (p : Project) (x : ProjectItem) : Project :=
  { p with computations := p.computations.erase x }

/-- Project.remove_connection from Project.py. -/
def Project.remove_connection (p : Project) (x : ProjectItem) : Project :=
  { p with connections := p.connections.erase x }

/-- Uuid uniqueness of one collection. -/
def uuidsNodup (l : List ProjectItem) : Prop :=
  (uuidsOf l).Nodup

/-- Objects that can be handed to get_object_specifier: the library classes
the isinstance chain of DataStructure.py recognises, Python None, and a
foreign object of no recognised class (truthy but unsupported). -/
inductive LibraryObject where
  | dataItem (u : Nat)
  | displayDataChannel (u : Nat)
  | graphic (u : Nat)
  | dataStructure (u : Nat)
  | displayItem (u : Nat)
  | foreign (u : Nat)
  | pyNone
  deriving DecidableEq, Repr

/-- str(object.uuid) of a library object id. -/
def uuidStr (u : Nat) : String :=
  toString u

/-- The facet-qualified type tags accepted on display data channels by
get_object_specifier. -/
def facetTypes : List String :=
  ["xdata", "display_xdata", "cropped_xdata", "cropped_display_xdata",
   "filter_xdata", "filtered_xdata"]

/-- One specifier dict literal of get_object_specifier: version, type tag,
uuid string, in the order the source writes them. -/
def mkObjSpec (t : String) (u : Nat) : Spec :=
  [("version", .intVal 1), ("type", .strVal t), ("uuid", .strVal (uuidStr u))]

/-- Python or between an optional string and a default string. -/
def strOrDefault (a : Option String) (b : String) : String :=
  match a with
  | some s => if s == "" then b else s
  | none => b

/-- get_object_specifier from DataStructure.py. The assert isinstance on the
facet path is modelled as an exception. -/
def get_object_specifier (obj : LibraryObject) (object_type : Option String) :
    Except String (Option Spec) :=
  match obj with
  | .dataItem u => .ok (some (mkObjSpec (strOrDefault object_type "data_item") u))
  | _ =>
    if obj != LibraryObject.pyNone
        && (match object_type with
            | some t => t ∈ facetTypes
            | none => false) then
      match obj with
      | .displayDataChannel u => .ok (some (mkObjSpec (object_type.getD "") u))
      | _ => .error "AssertionError"
    else
      match obj with
      | .displayDataChannel u => .ok (some (mkObjSpec "data_source" u))
      | .graphic u => .ok (some (mkObjSpec "graphic" u))
      | .dataStructure u => .ok (some (mkObjSpec "structure" u))
      | .displayItem u => .ok (some (mkObjSpec "display_item" u))
      | _ => .ok none

/-- ComputationVariable.variable_specifier from Symbolic.py: a value-typed
variable synthesises a variable specifier carrying its name and value under
the extra keys x-name and x-value; otherwise the stored specifier is
returned. -/
def ComputationVariable.variable_specifier (v : ComputationVariable) : Option Spec :=
  if v.value_type.isSome then
    some [("type", .strVal "variable"), ("version", .intVal 1),
          ("uuid", .strVal (uuidStr v.uuid)),
          ("x-name", match v.name with | some s => .strVal s | none => .noneVal),
          ("x-value", match v.value with | some w => .pyVal w | none => .noneVal)]
  else v.specifier

/-- Modelled from the spec: the fixed type-tag vocabulary of the specifier
wire shape, with the facet-qualified forms. -/
def specTypeVocab : List String :=
  ["data_item", "display_item", "data_source", "graphic", "structure", "variable"]
    ++ facetTypes

/-- Modelled from the spec: conformance of a dict to the specifier wire
shape, namely keys drawn from version, type, uuid and the optional property,
an integer version, a type string from the fixed vocabulary, a uuid string,
and a string property when present. -/
def conformsToWireShape (d : Spec) : Bool :=
  d.all (fun kv => kv.1 ∈ ["version", "type", "uuid", "property"])
    && (match Spec.get d "version" with | some (.intVal _) => true | _ => false)
    && (match Spec.get d "type" with | some (.strVal t) => t ∈ specTypeVocab | _ => false)
    && (match Spec.get d "uuid" with | some (.strVal _) => true | _ => false)
    && (match Spec.get d "property" with
        | some (.strVal _) => true
        | none => true
        | _ => false)

/-- Resolution of one variable as the claim about evaluate reads it: the
bound item exists and yields a non-null value. -/
def variableResolved (v : ComputationVariable) : Bool :=
  match v.bound_item with
  | some b => b.value.isSome
  | none => false

/-- The per-result condition that actually reaches the resolved flag: a
truthy scalar specifier with a falsy bound item, and nothing else; the check
over a present bound-item list is vacuous. -/
def resultOkPure (r : ComputationOutput) : Bool :=
  !(specTruthy r.specifier && !outBoundTruthy r.bound_item)

/-- A compute class whose execution reports a distinctive error message, so
that its invocation is observable in the returned error text. -/
def touchedClass : ComputeClass :=
  { execute := fun _ => .error "touched" }

/-- A registry holding only the touched compute class under the id t. -/
def regTouched : ComputationTypes :=
  [("t", touchedClass)]

/-- A computation whose first variable is unresolved (its bound item is
None) while its second variable is resolved. -/
def unresolvedFirst : Computation :=
  { processing_id := some "t",
    needs_update := true,
    variableList :=
      [{ uuid := 1, name := some "a",
         specifier := some [("type", SpecValue.strVal "data_source")],
         bound_item := none },
       { uuid := 2, name := some "b",
         bound_item := some { value := some (ResolvedValue.obj 7) } }] }

/-- An empty computation marked as needing an update. -/
def emptyNeedsUpdate : Computation :=
  { needs_update := true }

/-- A specifier for an object with uuid string one. -/
def specOne : Spec :=
  [("version", .intVal 1), ("type", .strVal "data_item"), ("uuid", .strVal "1")]

/-- A specifier for an object with uuid string two. -/
def specTwo : Spec :=
  [("version", .intVal 1), ("type", .strVal "data_item"), ("uuid", .strVal "2")]

/-- A resolution context able to resolve only specOne. -/
def resolveOneOnly : Spec → Option OutItem :=
  fun s => if s == specOne then some { value := 1 } else none

/-- An output holding a list of two specifiers. -/
def listOutput : ComputationOutput :=
  { uuid := 10, name := some "out", specifiers := some [specOne, specTwo] }

/-- The list output after binding against the context that resolves only the
first of its two specifiers. -/
def listOutputBound : ComputationOutput :=
  listOutput.bind resolveOneOnly

/-- A computation whose only output is the partially resolved list output. -/
def compListOutput : Computation :=
  { results := [listOutputBound] }

/-- A computation with one variable that was never bound, so its listener
dicts hold no entry for the variable. -/
def neverBound : Computation :=
  { variableList := [{ uuid := 1 }] }

/-- An unbound computation with one variable and one output, ready for
bind. -/
def bindStart : Computation :=
  { variableList := [{ uuid := 1 }], results := [{ uuid := 2 }] }

/-- A resolution context for variables that resolves nothing. -/
def resolveVNone : ComputationVariable → Option VarBoundItem :=
  fun _ => none

/-- A resolution context for output specifiers that resolves nothing. -/
def resolveONone : Spec → Option OutItem :=
  fun _ => none

/-- The state of bindStart after bind with the empty resolution contexts. -/
def boundAfterBind : Computation :=
  { variableList := [{ uuid := 1 }], results := [{ uuid := 2 }],
    variable_changed_listeners := [1], variable_rebind_listeners := [1],
    result_rebind_listeners := [2] }

/-- A computation with no processing id that needs an update and has no
variables or results, so its inputs are trivially resolved. -/
def missingIdComp : Computation :=
  { needs_update := true }

/-- A computation with a processing id that is not registered anywhere. -/
def pendingComp : Computation :=
  { processing_id := some "p", needs_update := true }

/-- A computation with a non-null processing id whose only output holds a
truthy specifiers list but no bound item, as for an output that was never
bound or whose bound item was nulled by a needs_rebind event. -/
def unboundListComp : Computation :=
  { processing_id := some "p", needs_update := true,
    results := [{ uuid := 11, name := some "out", specifiers := some [specOne] }] }

/-- A variable with no value type and no specifier. -/
def freshVariable : ComputationVariable :=
  { uuid := 0 }

/-- A value-typed variable carrying a name and a value. -/
def valueVariable : ComputationVariable :=
  { uuid := 3, name := some "a", value_type := some "integral",
    value := some (.pyint 2) }

theorem buildLog_items {α : Type} (rs : List (UndeleteBase α)) (log : UndeleteLog α) :
    (rs.foldl UndeleteLog.append log).items = log.items ++ rs := by
  induction rs generalizing log with
  | nil => simp
  | cons r rest ih => simp [UndeleteLog.append, ih]

theorem traceFold (ms : List Nat) (acc : List Nat) :
    (ms.map traceRecord).foldl (fun d entry => entry.undelete d) acc = acc ++ ms := by
  induction ms generalizing acc with
  | nil => simp
  | cons m rest ih => simp [traceRecord, ih]

/-- C6: an UndeleteLog built by appending records in removal order records
them in that order, and undelete_all replays them in exactly the reverse
order, as the trace instantiation shows record by record. -/
theorem undelete_all_replays_in_reverse {α : Type} (rs : List (UndeleteBase α)) (dm : α) :
    (rs.foldl UndeleteLog.append { items := [] }).items = rs
    ∧ UndeleteLog.undelete_all (rs.foldl UndeleteLog.append { items := [] }) dm
        = rs.reverse.foldl (fun d entry => entry.undelete d) dm
    ∧ ∀ ns : List Nat,
        UndeleteLog.undelete_all
            ((ns.map traceRecord).foldl UndeleteLog.append { items := [] }) []
          = ns.reverse := by
  refine ⟨by simp [buildLog_items], ?_, ?_⟩
  · unfold UndeleteLog.undelete_all
    rw [buildLog_items]
    simp
  · intro ns
    unfold UndeleteLog.undelete_all
    rw [buildLog_items]
    simp only [List.nil_append]
    rw [← List.map_reverse, traceFold]
    simp

/-- C10: setting expression to a different value clears processing_id, sets
needs_update and fires computation_mutated_event; setting it to the current
value changes nothing and fires no event. -/
theorem expression_setter_spec (c : Computation) (value : Option String) :
    (value ≠ c.original_expression →
      Computation.setExpression c value
        = ({ c with original_expression := value, processing_id := none, needs_update := true },
           ["computation_mutated_event"]))
    ∧ (value = c.original_expression → Computation.setExpression c value = (c, [])) := by
  constructor
  · intro h
    simp [Computation.setExpression, h]
  · intro h
    simp [Computation.setExpression, h]

theorem nodup_append_uuid (l : List ProjectItem) (x : ProjectItem)
    (h : x.uuid ∉ uuidsOf l) (hn : uuidsNodup l) : uuidsNodup (l ++ [x]) := by
  unfold uuidsNodup uuidsOf at *
  rw [List.map_append]
  simp [List.nodup_append, hn, h]

theorem nodup_erase_uuid (l : List ProjectItem) (x : ProjectItem)
    (hn : uuidsNodup l) : uuidsNodup (l.erase x) := by
  unfold uuidsNodup uuidsOf at *
  exact hn.sublist ((l.erase_sublist x).map ProjectItem.uuid)

/-- C8: each of the five appends asserts that the uuid of the appended
entity is fresh in its collection, succeeds under that precondition, and
uuid uniqueness of each collection is preserved by each append and each
remove. -/
theorem project_append_remove_uuid_unique (p : Project) (x : ProjectItem) :
    ((x.uuid ∈ uuidsOf p.data_items → Project.append_data_item p x = none)
      ∧ (x.uuid ∉ uuidsOf p.data_items →
          Project.append_data_item p x = some { p with data_items := p.data_items ++ [x] }
          ∧ (uuidsNodup p.data_items → uuidsNodup (p.data_items ++ [x])))
      ∧ (uuidsNodup p.data_items → uuidsNodup (Project.remove_data_item p x).data_items))
    ∧ ((x.uuid ∈ uuidsOf p.display_items → Project.append_display_item p x = none)
      ∧ (x.uuid ∉ uuidsOf p.display_items →
          Project.append_display_item p x = some { p with display_items := p.display_items ++ [x] }
          ∧ (uuidsNodup p.display_items → uuidsNodup (p.display_items ++ [x])))
      ∧ (uuidsNodup p.display_items → uuidsNodup (Project.remove_display_item p x).display_items))
    ∧ ((x.uuid ∈ uuidsOf p.data_structures → Project.append_data_structure p x = none)
      ∧ (x.uuid ∉ uuidsOf p.data_structures →
          Project.append_data_structure p x = some { p with data_structures := p.data_structures ++ [x] }
          ∧ (uuidsNodup p.data_structures → uuidsNodup (p.data_structures ++ [x])))
      ∧ (uuidsNodup p.data_structures → uuidsNodup (Project.remove_data_structure p x).data_structures))
    ∧ ((x.uuid ∈ uuidsOf p.computations → Project.append_computation p x = none)
      ∧ (x.uuid ∉ uuidsOf p.computations →
          Project.append_computation p x = some { p with computations := p.computations ++ [x] }
          ∧ (uuidsNodup p.computations → uuidsNodup (p.computations ++ [x])))
      ∧ (uuidsNodup p.computations → uuidsNodup (Project.remove_computation p x).computations))
    ∧ ((x.uuid ∈ uuidsOf p.connections → Project.append_connection p x = none)
      ∧ (x.uuid ∉ uuidsOf p.connections →
          Project.append_connection p x = some { p with connections := p.connections ++ [x] }
          ∧ (uuidsNodup p.connections → uuidsNodup (p.connections ++ [x])))
      ∧ (uuidsNodup p.connections → uuidsNodup (Project.remove_connection p x).connections)) := by
  refine ⟨⟨?_, ?_, ?_⟩, ⟨?_, ?_, ?_⟩, ⟨?_, ?_, ?_⟩, ⟨?_, ?_, ?_⟩, ⟨?_, ?_, ?_⟩⟩ <;>
    intro h
  · simp [Project.append_data_item, h]
  · exact ⟨by simp [Project.append_data_item, h], fun hn => nodup_append_uuid _ _ h hn⟩
  · exact nodup_erase_uuid _ _ h
  · simp [Project.append_display_item, h]
  · exact ⟨by simp [Project.append_display_item, h], fun hn => nodup_append_uuid _ _ h hn⟩
  · exact nodup_erase_uuid _ _ h
  · simp [Project.append_data_structure, h]
  · exact ⟨by simp [Project.append_data_structure, h], fun hn => nodup_append_uuid _ _ h hn⟩
  · exact nodup_erase_uuid _ _ h
  · simp [Project.append_computation, h]
  · exact ⟨by simp [Project.append_computation, h], fun hn => nodup_append_uuid _ _ h hn⟩
  · exact nodup_erase_uuid _ _ h
  · simp [Project.append_connection, h]
  · exact ⟨by simp [Project.append_connection, h], fun hn => nodup_append_uuid _ _ h hn⟩
  · exact nodup_erase_uuid _ _ h

theorem set_needs_update_false (c : Computation) (h : c.needs_update = false) :
    { c with needs_update := false } = c := by
  cases c
  simp_all

theorem evaluate_noop (reg : ComputationTypes) (t : Nat) (c : Computation)
    (h : c.needs_update = false) :
    Computation.evaluate reg t c = (.ok (none, none), c) := by
  have e := set_needs_update_false c h
  simp [Computation.evaluate, h, e]

/-- C4: evaluate with needs_update false is a complete no-op, and a second
evaluate without an intervening mark_update leaves the counter, the
timestamp and all other state untouched, so the counter rises exactly once
across the two calls. -/
theorem evaluate_idempotent (reg : ComputationTypes) (t1 t2 : Nat) (c : Computation) :
    (c.needs_update = false → Computation.evaluate reg t1 c = (.ok (none, none), c))
    ∧ (∀ out c1, c.needs_update = true →
        Computation.evaluate reg t1 c = (.ok out, c1) →
        c1.evaluation_count = c.evaluation_count + 1
        ∧ c1.needs_update = false
        ∧ Computation.evaluate reg t2 c1 = (.ok (none, none), c1)) := by
  constructor
  · intro h
    exact evaluate_noop reg t1 c h
  · intro out c1 h hEval
    simp only [Computation.evaluate, h, if_true] at hEval
    have state : c1 = Computation.recordEvaluation t1 { c with needs_update := false } := by
      split at hEval
      · simp at hEval
      · rename_i kf hkf
        split at hEval
        · split at hEval
          · split at hEval
            · exact (Prod.mk.injEq .. ▸ hEval).2.symm
            · exact (Prod.mk.injEq .. ▸ hEval).2.symm
          · split at hEval
            · exact (Prod.mk.injEq .. ▸ hEval).2.symm
            · simp at hEval
        · exact (Prod.mk.injEq .. ▸ hEval).2.symm
    subst state
    refine ⟨rfl, rfl, ?_⟩
    exact evaluate_noop reg t2 _ rfl

theorem outBoundAll_ok (ob : Option OutBound) (b : Bool)
    (h : outBoundAll ob = .ok b) : b = true := by
  match ob with
  | none => simp [outBoundAll] at h
  | some (.single _) => simp [outBoundAll] at h
  | some (.items bs) =>
    simp only [outBoundAll, Except.ok.injEq] at h
    rw [← h]
    simp

theorem resolveVars_cons (v : ComputationVariable) (rest : List ComputationVariable)
    (kw : Kwargs) (f : Bool) :
    resolveVars (v :: rest) kw f
      = match v.bound_item with
        | some b => resolveVars rest (kwargsSet kw v.name b.value) b.value.isSome
        | none => resolveVars rest kw false := rfl

theorem resolveVars_flag (vs : List ComputationVariable) :
    ∀ (kw : Kwargs) (f : Bool),
      (resolveVars vs kw f).2 = (vs.getLast?.map variableResolved).getD f := by
  induction vs with
  | nil =>
    intro kw f
    rfl
  | cons v rest ih =>
    intro kw f
    cases rest with
    | nil =>
      cases hb : v.bound_item <;>
        simp [resolveVars, hb, variableResolved, List.getLast?_singleton]
    | cons w ws =>
      have hlast : ∃ lv, (w :: ws).getLast? = some lv := by
        cases hg : (w :: ws).getLast? with
        | some lv => exact ⟨lv, rfl⟩
        | none => simp [List.getLast?_eq_none_iff] at hg
      obtain ⟨lv, hlv⟩ := hlast
      cases hb : v.bound_item with
      | some b =>
        rw [resolveVars_cons]
        simp only [hb]
        rw [ih, List.getLast?_cons_cons, hlv]
        simp
      | none =>
        rw [resolveVars_cons]
        simp only [hb]
        rw [ih, List.getLast?_cons_cons, hlv]
        simp

theorem resolveResults_ok (rs : List ComputationOutput) :
    ∀ (f b : Bool), resolveResults rs f = .ok b → b = (f && rs.all resultOkPure) := by
  induction rs with
  | nil =>
    intro f b h
    simp only [resolveResults, Except.ok.injEq] at h
    simp [← h]
  | cons r rest ih =>
    intro f b h
    simp only [resolveResults] at h
    cases hl : listTruthy r.specifiers with
    | true =>
      rw [if_pos hl] at h
      cases hob : outBoundAll r.bound_item with
      | error e => rw [hob] at h; exact absurd h (by simp)
      | ok bb =>
        rw [hob] at h
        rw [outBoundAll_ok _ _ hob] at h
        cases hsv : (specTruthy r.specifier && !outBoundTruthy r.bound_item) with
        | true =>
          simp only [hsv] at h
          simp at h
          rw [ih _ _ h]
          simp [List.all_cons, resultOkPure, hsv]
        | false =>
          simp only [hsv] at h
          simp at h
          rw [ih _ _ h]
          simp [List.all_cons, resultOkPure, hsv]
    | false =>
      rw [if_neg (by simp [hl])] at h
      cases hsv : (specTruthy r.specifier && !outBoundTruthy r.bound_item) with
      | true =>
        simp only [hsv] at h
        simp at h
        rw [ih _ _ h]
        simp [List.all_cons, resultOkPure, hsv]
      | false =>
        simp only [hsv] at h
        simp at h
        rw [ih _ _ h]
        simp [List.all_cons, resultOkPure, hsv]

theorem resolveInputs_flag (c : Computation) (kwargs : Kwargs) (flag : Bool)
    (hr : c.resolveInputs = .ok (kwargs, flag)) :
    flag = ((c.variableList.getLast?.map variableResolved).getD true
            && c.results.all resultOkPure) := by
  unfold Computation.resolveInputs at hr
  split at hr
  · simp at hr
  · rename_i b hb
    simp only [Except.ok.injEq, Prod.mk.injEq] at hr
    obtain ⟨hk, hf⟩ := hr
    subst hf
    rw [resolveResults_ok c.results _ _ hb, resolveVars_flag]

/-- C1 (amended): during evaluate with needs_update true and no raised
exception in input resolution, the resolved flag the method recomputes
equals the resolution of only the last variable of the ordered list (true
when the list is empty) conjoined with the scalar-specifier checks of the
results, because the flag is overwritten on every loop iteration; when that
flag is false the evaluator is not invoked and the error text is Missing
parameters., and when it is true the registered compute class is invoked. -/
theorem evaluate_checks_only_last_variable (reg : ComputationTypes) (now : Nat)
    (c : Computation) (kwargs : Kwargs) (flag : Bool)
    (hn : c.needs_update = true)
    (hr : c.resolveInputs = .ok (kwargs, flag)) :
    flag = ((c.variableList.getLast?.map variableResolved).getD true
            && c.results.all resultOkPure)
    ∧ (flag = false →
        Computation.evaluate reg now c
          = (.ok (none, some "Missing parameters."),
             Computation.recordEvaluation now { c with needs_update := false }))
    ∧ (∀ cls, flag = true → computationTypesGet reg c.processing_id = some cls →
        (Computation.evaluate reg now c).1
          = match cls.execute kwargs with
            | .ok _ => .ok (some cls, none)
            | .error msg =>
                .ok (none, some (if msg == "" then "Unable to evaluate script." else msg))) := by
  have hr2 : ({ c with needs_update := false } : Computation).resolveInputs
      = .ok (kwargs, flag) := hr
  refine ⟨resolveInputs_flag c kwargs flag hr, ?_, ?_⟩
  · intro hf
    simp only [Computation.evaluate, hn, if_true, hr2, hf]
    rfl
  · intro cls hf hcls
    have hcls2 : computationTypesGet reg ({ c with needs_update := false } : Computation).processing_id
        = some cls := hcls
    simp only [Computation.evaluate, hn, if_true, hr2, hf, hcls2]
    split <;> rfl

/-- C1 counterexample: the first variable of unresolvedFirst is unresolved,
yet evaluate invokes the registered compute class, whose distinctive message
becomes the error text instead of Missing parameters. -/
theorem evaluate_invoked_despite_unresolved_variable :
    (Computation.evaluate regTouched 0 unresolvedFirst).1 = .ok (none, some "touched")
    ∧ unresolvedFirst.variableList.all variableResolved = false := by
  exact ⟨rfl, rfl⟩

/-- C1 witness: the amended theorem applied to the empty computation that
needs an update. -/
theorem evaluate_checks_only_last_variable_witness :
    true = ((emptyNeedsUpdate.variableList.getLast?.map variableResolved).getD true
            && emptyNeedsUpdate.results.all resultOkPure)
    ∧ (true = false →
        Computation.evaluate [] 0 emptyNeedsUpdate
          = (.ok (none, some "Missing parameters."),
             Computation.recordEvaluation 0 { emptyNeedsUpdate with needs_update := false }))
    ∧ (∀ cls, true = true → computationTypesGet [] emptyNeedsUpdate.processing_id = some cls →
        (Computation.evaluate [] 0 emptyNeedsUpdate).1
          = match cls.execute [] with
            | .ok _ => .ok (some cls, none)
            | .error msg =>
                .ok (none, some (if msg == "" then "Unable to evaluate script." else msg))) :=
  evaluate_checks_only_last_variable [] 0 emptyNeedsUpdate [] true rfl rfl

theorem resultsResolved_no_raise (rs : List ComputationOutput)
    (h : rs.all (fun r => !listTruthy r.specifiers || boundIsItems r.bound_item) = true) :
    resultsResolved rs = .ok (rs.all resultOkPure) := by
  induction rs with
  | nil => rfl
  | cons r rest ih =>
    simp only [List.all_cons, Bool.and_eq_true] at h
    obtain ⟨h1, h2⟩ := h
    simp only [resultsResolved]
    cases hsv : (specTruthy r.specifier && !outBoundTruthy r.bound_item) with
    | true =>
      have hp : resultOkPure r = false := by simp [resultOkPure, hsv]
      simp [List.all_cons, hp]
    | false =>
      rw [if_neg (by simp)]
      have hp : resultOkPure r = true := by simp [resultOkPure, hsv]
      cases hl : listTruthy r.specifiers with
      | true =>
        have hitems : boundIsItems r.bound_item = true := by
          rw [hl] at h1
          simpa using h1
        have hex : ∃ bs, r.bound_item = some (OutBound.items bs) := by
          cases hob : r.bound_item with
          | none => rw [hob] at hitems; simp [boundIsItems] at hitems
          | some ob =>
            cases ob with
            | single b => rw [hob] at hitems; simp [boundIsItems] at hitems
            | items bs => exact ⟨bs, rfl⟩
        obtain ⟨bs, hob⟩ := hex
        rw [hob]
        simp [outBoundAll, ih h2, List.all_cons, hp]
      | false =>
        rw [if_neg (by simp)]
        rw [ih h2]
        simp [List.all_cons, hp]

/-- C2 (amended): when no output with a truthy specifiers list lacks a bound
item list (so that the all() call cannot raise), is_resolved is true iff
every variable with a truthy specifier has a bound item and every output
with a truthy scalar specifier has a truthy bound item; the specifiers-list
condition contributes nothing, because bind drops unresolvable specifiers
and all() over the remaining bound items is vacuously true. -/
theorem is_resolved_characterization (c : Computation)
    (h : c.results.all (fun r => !listTruthy r.specifiers || boundIsItems r.bound_item) = true) :
    Computation.is_resolved c = .ok true
      ↔ (c.variableList.all (fun v => !specTruthy v.specifier || v.bound_item.isSome) = true
         ∧ c.results.all resultOkPure = true) := by
  unfold Computation.is_resolved
  cases hv : c.variableList.all (fun v => !specTruthy v.specifier || v.bound_item.isSome) with
  | true =>
    rw [if_neg (by simp [hv])]
    rw [resultsResolved_no_raise c.results h]
    simp
  | false =>
    rw [if_pos (by simp [hv])]
    simp

/-- C2 counterexample: one of the two specifiers of the list output fails to
resolve during bind, yet is_resolved of the computation is true. -/
theorem is_resolved_true_with_failed_list_specifier :
    Computation.is_resolved compListOutput = .ok true
    ∧ resolveOneOnly specTwo = none
    ∧ listOutputBound.bound_item = some (OutBound.items [{ value := 1 }]) := by
  exact ⟨rfl, rfl, rfl⟩

/-- C2 witness: the amended characterization applied to the computation with
the partially resolved list output. -/
theorem is_resolved_characterization_witness :
    Computation.is_resolved compListOutput = .ok true
      ↔ (compListOutput.variableList.all
            (fun v => !specTruthy v.specifier || v.bound_item.isSome) = true
         ∧ compListOutput.results.all resultOkPure = true) :=
  is_resolved_characterization compListOutput (by rfl)

theorem evaluate_eq (reg : ComputationTypes) (now : Nat) (c : Computation)
    (kwargs : Kwargs) (flag : Bool)
    (hn : c.needs_update = true)
    (hr : c.resolveInputs = .ok (kwargs, flag)) :
    Computation.evaluate reg now c
      = (if flag then
           match computationTypesGet reg c.processing_id with
           | some cls =>
             match cls.execute kwargs with
             | .ok _ =>
                 (.ok (some cls, none),
                  Computation.recordEvaluation now { c with needs_update := false })
             | .error msg =>
                 (.ok (none, some (if msg == "" then "Unable to evaluate script." else msg)),
                  Computation.recordEvaluation now { c with needs_update := false })
           | none =>
             match c.processing_id with
             | some pid =>
                 (.ok (none, some ("Missing computation (" ++ pid ++ ").")),
                  Computation.recordEvaluation now { c with needs_update := false })
             | none =>
                 (.error "TypeError: can only concatenate str to str",
                  { c with needs_update := false })
         else
           (.ok (none, some "Missing parameters."),
            Computation.recordEvaluation now { c with needs_update := false })) := by
  have hr2 : ({ c with needs_update := false } : Computation).resolveInputs
      = .ok (kwargs, flag) := hr
  simp only [Computation.evaluate, hn, if_true, hr2]

/-- C5 (amended): evaluate captures failures as error text exactly when its
input resolution does not raise and the processing id is non-null: when
those hold, unresolved inputs give Missing parameters., an unregistered id
gives Missing computation (id)., and a raising compute class gives the
message of its exception. When __resolve_inputs itself raises, here from
all() over an output with a truthy specifiers list and no bound item list,
the exception escapes evaluate even with a non-null processing id; and an
absent processing id with resolved inputs raises as well, as the
counterexample shows. -/
theorem evaluate_captures_failures (reg : ComputationTypes) (now : Nat) :
    (∀ (c : Computation) (s : String) (kwargs : Kwargs) (flag : Bool),
      c.needs_update = true →
      c.processing_id = some s →
      c.resolveInputs = .ok (kwargs, flag) →
      (Computation.evaluate reg now c).1.isOk = true
      ∧ (flag = false →
          (Computation.evaluate reg now c).1 = .ok (none, some "Missing parameters."))
      ∧ (flag = true → computationTypesGet reg (some s) = none →
          (Computation.evaluate reg now c).1
            = .ok (none, some ("Missing computation (" ++ s ++ ").")))
      ∧ (∀ cls msg, flag = true → computationTypesGet reg (some s) = some cls →
          cls.execute kwargs = .error msg →
          (Computation.evaluate reg now c).1
            = .ok (none, some (if msg == "" then "Unable to evaluate script." else msg))))
    ∧ (∀ (c : Computation) (e : String),
      c.needs_update = true →
      c.resolveInputs = .error e →
      (Computation.evaluate reg now c).1 = .error e) := by
  constructor
  · intro c s kwargs flag hn hp hr
    rw [evaluate_eq reg now c kwargs flag hn hr, hp]
    refine ⟨?_, ?_, ?_, ?_⟩
    · cases hf : flag with
      | false => rfl
      | true =>
        cases hcg : computationTypesGet reg (some s) with
        | some cls => cases hex : cls.execute kwargs <;> simp [hex, Except.isOk, Except.toBool]
        | none => rfl
    · intro hf
      simp [hf]
    · intro hf hcg
      simp [hf, hcg]
    · intro cls msg hf hcg hex
      simp [hf, hcg, hex]
  · intro c e hn hr
    have hr2 : ({ c with needs_update := false } : Computation).resolveInputs = .error e := hr
    simp [Computation.evaluate, hn, hr2]

/-- C5 counterexample: a computation with trivially resolved inputs but no
processing id makes evaluate raise instead of producing an error text, and
a computation with a NON-NULL processing id whose output holds a truthy
specifiers list without a bound item list makes evaluate raise from the
all() call of input resolution. -/
theorem evaluate_raises_on_absent_processing_id :
    (Computation.evaluate [] 0 missingIdComp).1.isOk = false
    ∧ missingIdComp.processing_id = none
    ∧ missingIdComp.needs_update = true
    ∧ (Computation.evaluate [] 0 unboundListComp).1
        = .error "TypeError: NoneType is not iterable"
    ∧ unboundListComp.processing_id = some "p" := by
  exact ⟨rfl, rfl, rfl, rfl, rfl⟩

/-- C5 witness: the amended theorem applied to a computation with an
unregistered processing id. -/
theorem evaluate_captures_failures_witness :
    (Computation.evaluate [] 0 pendingComp).1.isOk = true
    ∧ (true = false →
        (Computation.evaluate [] 0 pendingComp).1 = .ok (none, some "Missing parameters."))
    ∧ (true = true → computationTypesGet [] (some "p") = none →
        (Computation.evaluate [] 0 pendingComp).1
          = .ok (none, some ("Missing computation (" ++ "p" ++ ").")))
    ∧ (∀ cls msg, true = true → computationTypesGet [] (some "p") = some cls →
        cls.execute [] = .error msg →
        (Computation.evaluate [] 0 pendingComp).1
          = .ok (none, some (if msg == "" then "Unable to evaluate script." else msg))) :=
  (evaluate_captures_failures [] 0).1 pendingComp "p" [] true rfl rfl rfl

theorem unbindVars_fold (us : List Nat) :
    ∀ c : Computation,
      c.variable_changed_listeners = us →
      c.variable_rebind_listeners = us →
      ∃ c2, us.foldlM Computation.unbindVariable c = .ok c2
        ∧ c2.result_rebind_listeners = c.result_rebind_listeners
        ∧ c2.results = c.results := by
  induction us with
  | nil =>
    intro c h1 h2
    exact ⟨c, rfl, rfl, rfl⟩
  | cons u rest ih =>
    intro c h1 h2
    have step : Computation.unbindVariable c u
        = .ok { c with
            variable_changed_listeners := c.variable_changed_listeners.erase u,
            variable_rebind_listeners := c.variable_rebind_listeners.erase u,
            variableList := c.variableList.map (fun v =>
              if v.uuid == u then { v with bound_item := none } else v) } := by
      unfold Computation.unbindVariable
      rw [if_pos (by rw [h1]; exact List.mem_cons_self u rest),
          if_pos (by rw [h2]; exact List.mem_cons_self u rest)]
    obtain ⟨c2, hfold, m1, m2⟩ := ih
      { c with
        variable_changed_listeners := c.variable_changed_listeners.erase u,
        variable_rebind_listeners := c.variable_rebind_listeners.erase u,
        variableList := c.variableList.map (fun v =>
          if v.uuid == u then { v with bound_item := none } else v) }
      (by simp [h1, List.erase_cons_head])
      (by simp [h2, List.erase_cons_head])
    refine ⟨c2, ?_, m1, m2⟩
    rw [List.foldlM_cons, step]
    exact hfold

theorem unbindResults_fold (us : List Nat) :
    ∀ c : Computation,
      c.result_rebind_listeners = us →
      ∃ c2, us.foldlM Computation.unbindResult c = .ok c2 := by
  induction us with
  | nil =>
    intro c h
    exact ⟨c, rfl⟩
  | cons u rest ih =>
    intro c h
    have step : Computation.unbindResult c u
        = .ok { c with
            result_rebind_listeners := c.result_rebind_listeners.erase u,
            results := c.results.map (fun r =>
              if r.uuid == u then { r with bound_item := none } else r) } := by
      unfold Computation.unbindResult
      rw [if_pos (by rw [h]; exact List.mem_cons_self u rest)]
    obtain ⟨c2, hfold⟩ := ih
      { c with
        result_rebind_listeners := c.result_rebind_listeners.erase u,
        results := c.results.map (fun r =>
          if r.uuid == u then { r with bound_item := none } else r) }
      (by simp [h, List.erase_cons_head])
    refine ⟨c2, ?_⟩
    rw [List.foldlM_cons, step]
    exact hfold

theorem bindVars_fold (rv : ComputationVariable → Option VarBoundItem) (us : List Nat) :
    ∀ c : Computation,
      (us.foldl (Computation.bindVariable rv) c).variable_changed_listeners
          = c.variable_changed_listeners ++ us
      ∧ (us.foldl (Computation.bindVariable rv) c).variable_rebind_listeners
          = c.variable_rebind_listeners ++ us
      ∧ (us.foldl (Computation.bindVariable rv) c).variableList.map (fun v => v.uuid)
          = c.variableList.map (fun v => v.uuid)
      ∧ (us.foldl (Computation.bindVariable rv) c).results = c.results
      ∧ (us.foldl (Computation.bindVariable rv) c).result_rebind_listeners
          = c.result_rebind_listeners := by
  induction us with
  | nil =>
    intro c
    exact ⟨by simp, by simp, rfl, rfl, rfl⟩
  | cons u rest ih =>
    intro c
    obtain ⟨e1, e2, e3, e4, e5⟩ := ih (Computation.bindVariable rv c u)
    have huuid : (Computation.bindVariable rv c u).variableList.map (fun v => v.uuid)
        = c.variableList.map (fun v => v.uuid) := by
      simp only [Computation.bindVariable, List.map_map]
      apply List.map_congr_left
      intro v hv
      by_cases hvu : (v.uuid == u) = true <;> simp [Function.comp, hvu]
    refine ⟨?_, ?_, ?_, ?_, ?_⟩
    · rw [List.foldl_cons, e1]
      simp [Computation.bindVariable]
    · rw [List.foldl_cons, e2]
      simp [Computation.bindVariable]
    · rw [List.foldl_cons, e3, huuid]
    · rw [List.foldl_cons, e4]
      rfl
    · rw [List.foldl_cons, e5]
      rfl

theorem output_bind_uuid (r : ComputationOutput) (f : Spec → Option OutItem) :
    (r.bind f).uuid = r.uuid := by
  unfold ComputationOutput.bind
  split
  · rfl
  · split <;> rfl

theorem bindResults_fold (ro : Spec → Option OutItem) (us : List Nat) :
    ∀ c : Computation,
      (us.foldl (Computation.bindResult ro) c).result_rebind_listeners
          = c.result_rebind_listeners ++ us
      ∧ (us.foldl (Computation.bindResult ro) c).results.map (fun r => r.uuid)
          = c.results.map (fun r => r.uuid)
      ∧ (us.foldl (Computation.bindResult ro) c).variable_changed_listeners
          = c.variable_changed_listeners
      ∧ (us.foldl (Computation.bindResult ro) c).variable_rebind_listeners
          = c.variable_rebind_listeners
      ∧ (us.foldl (Computation.bindResult ro) c).variableList = c.variableList := by
  induction us with
  | nil =>
    intro c
    exact ⟨by simp, rfl, rfl, rfl, rfl⟩
  | cons u rest ih =>
    intro c
    obtain ⟨e1, e2, e3, e4, e5⟩ := ih (Computation.bindResult ro c u)
    have huuid : (Computation.bindResult ro c u).results.map (fun r => r.uuid)
        = c.results.map (fun r => r.uuid) := by
      simp only [Computation.bindResult, List.map_map]
      apply List.map_congr_left
      intro r hr
      by_cases hru : (r.uuid == u) = true <;> simp [Function.comp, hru, output_bind_uuid]
    refine ⟨?_, ?_, ?_, ?_, ?_⟩
    · rw [List.foldl_cons, e1]
      simp [Computation.bindResult]
    · rw [List.foldl_cons, e2, huuid]
    · rw [List.foldl_cons, e3]
      rfl
    · rw [List.foldl_cons, e4]
      rfl
    · rw [List.foldl_cons, e5]
      rfl

/-- C3 (amended): unbind succeeds on a computation whose listener entries
were registered for every variable and every result, which is exactly the
state bind establishes from an unbound, listener-free computation; on a
never-bound computation with a variable it raises a KeyError instead, as
the counterexample shows. -/
theorem unbind_ok_of_listeners (cb : Computation)
    (h1 : cb.variable_changed_listeners = cb.variableList.map (fun v => v.uuid))
    (h2 : cb.variable_rebind_listeners = cb.variableList.map (fun v => v.uuid))
    (h3 : cb.result_rebind_listeners = cb.results.map (fun r => r.uuid)) :
    ∃ c2, Computation.unbind cb = .ok c2 := by
  unfold Computation.unbind
  obtain ⟨cmid, hfold, m1, m2⟩ :=
    unbindVars_fold (cb.variableList.map (fun v => v.uuid)) cb h1 h2
  rw [hfold]
  have h4 : cmid.result_rebind_listeners = cmid.results.map (fun r => r.uuid) := by
    rw [m1, h3, m2]
  obtain ⟨cend, hfold2⟩ :=
    unbindResults_fold (cmid.results.map (fun r => r.uuid)) cmid h4
  exact ⟨cend, hfold2⟩

theorem unbind_ok_after_bind (c : Computation)
    (rv : ComputationVariable → Option VarBoundItem)
    (ro : Spec → Option OutItem) (c1 : Computation)
    (hl : c.variable_changed_listeners = [] ∧ c.variable_rebind_listeners = []
          ∧ c.result_rebind_listeners = [])
    (hbind : Computation.bindAll rv ro c = .ok c1) :
    ∃ c2, Computation.unbind c1 = .ok c2 := by
  obtain ⟨hl1, hl2, hl3⟩ := hl
  simp only [Computation.bindAll] at hbind
  split at hbind
  · simp only [Except.ok.injEq] at hbind
    obtain ⟨e1, e2, e3, e4, e5⟩ :=
      bindVars_fold rv (c.variableList.map (fun v => v.uuid)) c
    obtain ⟨f1, f2, f3, f4, f5⟩ :=
      bindResults_fold ro
        (((c.variableList.map (fun v => v.uuid)).foldl
            (Computation.bindVariable rv) c).results.map (fun r => r.uuid))
        ((c.variableList.map (fun v => v.uuid)).foldl (Computation.bindVariable rv) c)
    subst hbind
    apply unbind_ok_of_listeners
    · rw [f3, e1, hl1, List.nil_append, f5, e3]
    · rw [f4, e2, hl2, List.nil_append, f5, e3]
    · rw [f1, e5, hl3, List.nil_append, f2]
  · exact absurd hbind (by simp)

/-- C3 counterexample: unbind on a never-bound computation with one
variable raises a KeyError from the listener dict lookup. -/
theorem unbind_raises_when_never_bound :
    Computation.unbind neverBound = .error "KeyError"
    ∧ neverBound.variable_changed_listeners = [] := by
  exact ⟨rfl, rfl⟩

/-- C3 witness: the amended theorem applied to a computation with one
variable and one output, bound with empty resolution contexts. -/
theorem unbind_ok_after_bind_witness :
    ∃ c2, Computation.unbind boundAfterBind = .ok c2 :=
  unbind_ok_after_bind bindStart resolveVNone resolveONone boundAfterBind
    ⟨rfl, rfl, rfl⟩ (by rfl)

/-- C7: an assignment to variable_type never leaves value_type and specifier
both set: starting from a state where they are not both set, a scalar kind
clears the specifiers and regenerates default, min and max, an object kind
clears value_type, and every other assignment leaves the state unchanged. -/
theorem variable_type_setter_invariant (v : ComputationVariable) (vt : String)
    (h : (v.value_type.isSome && v.specifier.isSome) = false) :
    ((v.setVariableType vt).value_type.isSome
        && (v.setVariableType vt).specifier.isSome) = false
    ∧ (vt ∈ ["boolean", "integral", "real", "complex", "string"] →
        some (SpecValue.strVal vt) ≠ v.variable_type →
        (v.setVariableType vt).specifier = none
        ∧ (v.setVariableType vt).secondary_specifier = none
        ∧ (v.setVariableType vt).value_type = some vt
        ∧ (v.setVariableType vt).value_default = scalar_value_default vt
        ∧ (v.setVariableType vt).value_min = none
        ∧ (v.setVariableType vt).value_max = none)
    ∧ ((vt ∈ data_item_types ∨ vt = "graphic") →
        some (SpecValue.strVal vt) ≠ v.variable_type →
        (v.setVariableType vt).value_type = none) := by
  refine ⟨?_, ?_, ?_⟩
  · unfold ComputationVariable.setVariableType
    split
    · exact h
    · split
      · simp
      · split
        · simp
        · split
          · simp
          · exact h
  · intro h1 h2
    unfold ComputationVariable.setVariableType
    rw [if_neg (by simp only [beq_iff_eq]; exact h2), if_pos h1]
    exact ⟨rfl, rfl, rfl, rfl, rfl, rfl⟩
  · intro h1 h2
    unfold ComputationVariable.setVariableType
    rw [if_neg (by simp only [beq_iff_eq]; exact h2)]
    rcases h1 with h1 | h1
    · simp only [data_item_types, List.mem_cons, List.not_mem_nil, or_false] at h1
      rcases h1 with rfl | rfl | rfl <;>
        rw [if_neg (by decide), if_pos (by decide)]
    · subst h1
      rw [if_neg (by decide), if_neg (by decide), if_pos (by decide)]

/-- C7 witness: the invariant theorem applied to a fresh variable receiving
the boolean kind. -/
theorem variable_type_setter_invariant_witness :
    ((freshVariable.setVariableType "boolean").value_type.isSome
        && (freshVariable.setVariableType "boolean").specifier.isSome) = false
    ∧ ("boolean" ∈ ["boolean", "integral", "real", "complex", "string"] →
        some (SpecValue.strVal "boolean") ≠ freshVariable.variable_type →
        (freshVariable.setVariableType "boolean").specifier = none
        ∧ (freshVariable.setVariableType "boolean").secondary_specifier = none
        ∧ (freshVariable.setVariableType "boolean").value_type = some "boolean"
        ∧ (freshVariable.setVariableType "boolean").value_default
            = scalar_value_default "boolean"
        ∧ (freshVariable.setVariableType "boolean").value_min = none
        ∧ (freshVariable.setVariableType "boolean").value_max = none)
    ∧ (("boolean" ∈ data_item_types ∨ "boolean" = "graphic") →
        some (SpecValue.strVal "boolean") ≠ freshVariable.variable_type →
        (freshVariable.setVariableType "boolean").value_type = none) :=
  variable_type_setter_invariant freshVariable "boolean" rfl

/-- C9 (amended): dicts from get_object_specifier carry exactly the keys
version, type and uuid with version one and a string uuid, and their type
tag is in the fixed vocabulary whenever the supplied object type is absent
or itself in the vocabulary; a falsy unsupported object yields null for any
object type, while a truthy unsupported object with a facet-qualified type
fails the isinstance assertion; and the variable specifier of a value-typed
variable carries the extra keys x-name and x-value, so it does not conform
to the bare wire shape. -/
theorem specifier_wire_shape :
    (∀ (obj : LibraryObject) (object_type : Option String) (d : Spec),
        get_object_specifier obj object_type = .ok (some d) →
        d.all (fun kv => kv.1 ∈ ["version", "type", "uuid"]) = true
        ∧ Spec.get d "version" = some (.intVal 1)
        ∧ (∃ u, Spec.get d "uuid" = some (.strVal (uuidStr u)))
        ∧ ((object_type = none ∨ ∃ t, object_type = some t ∧ t ∈ specTypeVocab) →
            ∃ t, Spec.get d "type" = some (.strVal t) ∧ t ∈ specTypeVocab))
    ∧ (∀ ot, get_object_specifier LibraryObject.pyNone ot = .ok none)
    ∧ (∀ u t, t ∈ facetTypes →
        get_object_specifier (LibraryObject.foreign u) (some t) = .error "AssertionError")
    ∧ (∀ v : ComputationVariable, v.value_type.isSome = true →
        ∃ d, v.variable_specifier = some d
          ∧ Spec.get d "type" = some (.strVal "variable")
          ∧ Spec.get d "version" = some (.intVal 1)
          ∧ conformsToWireShape d = false) := by
  refine ⟨?_, ?_, ?_, ?_⟩
  · intro obj ot d h
    cases obj with
    | dataItem u =>
      simp only [get_object_specifier, Except.ok.injEq, Option.some.injEq] at h
      subst h
      refine ⟨by simp [mkObjSpec], rfl, ⟨u, rfl⟩, ?_⟩
      intro hvoc
      rcases hvoc with rfl | ⟨t1, rfl, hmem⟩
      · exact ⟨"data_item", rfl, by decide⟩
      · by_cases he : (t1 == "") = true
        · have hs : strOrDefault (some t1) "data_item" = "data_item" := by
            simp [strOrDefault, he]
          exact ⟨"data_item", by rw [hs]; rfl, by decide⟩
        · have hs : strOrDefault (some t1) "data_item" = t1 := by
            simp [strOrDefault, he]
          exact ⟨t1, by rw [hs]; rfl, hmem⟩
    | displayDataChannel u =>
      simp only [get_object_specifier] at h
      split at h
      · rename_i hcond
        simp only [Except.ok.injEq, Option.some.injEq] at h
        subst h
        cases ot with
        | none => simp at hcond
        | some t0 =>
          simp only [Bool.and_eq_true, decide_eq_true_eq] at hcond
          refine ⟨by simp [mkObjSpec], rfl, ⟨u, rfl⟩, ?_⟩
          intro hvoc
          refine ⟨t0, rfl, ?_⟩
          unfold specTypeVocab
          exact List.mem_append_right _ hcond.2
      · simp only [Except.ok.injEq, Option.some.injEq] at h
        subst h
        refine ⟨by simp [mkObjSpec], rfl, ⟨u, rfl⟩, ?_⟩
        intro hvoc
        exact ⟨"data_source", rfl, by decide⟩
    | graphic u =>
      simp only [get_object_specifier] at h
      split at h
      · simp at h
      · simp only [Except.ok.injEq, Option.some.injEq] at h
        subst h
        exact ⟨by simp [mkObjSpec], rfl, ⟨u, rfl⟩, fun hvoc => ⟨"graphic", rfl, by decide⟩⟩
    | dataStructure u =>
      simp only [get_object_specifier] at h
      split at h
      · simp at h
      · simp only [Except.ok.injEq, Option.some.injEq] at h
        subst h
        exact ⟨by simp [mkObjSpec], rfl, ⟨u, rfl⟩, fun hvoc => ⟨"structure", rfl, by decide⟩⟩
    | displayItem u =>
      simp only [get_object_specifier] at h
      split at h
      · simp at h
      · simp only [Except.ok.injEq, Option.some.injEq] at h
        subst h
        exact ⟨by simp [mkObjSpec], rfl, ⟨u, rfl⟩, fun hvoc => ⟨"display_item", rfl, by decide⟩⟩
    | foreign u =>
      simp only [get_object_specifier] at h
      split at h
      · simp at h
      · simp at h
    | pyNone =>
      simp only [get_object_specifier] at h
      simp at h
  · intro ot
    rfl
  · intro u t ht
    simp [get_object_specifier, ht]
  · intro v hv
    exact ⟨[("type", .strVal "variable"), ("version", .intVal 1),
            ("uuid", .strVal (uuidStr v.uuid)),
            ("x-name", match v.name with | some s => .strVal s | none => .noneVal),
            ("x-value", match v.value with | some w => .pyVal w | none => .noneVal)],
           by unfold ComputationVariable.variable_specifier; rw [if_pos hv],
           rfl, rfl, rfl⟩

/-- C9 counterexample: the variable specifier of a value-typed variable does
not conform to the wire shape, and a facet object type on a truthy object of
no recognised class raises instead of yielding null. -/
theorem variable_specifier_breaks_wire_shape :
    (valueVariable.variable_specifier.map conformsToWireShape) = some false
    ∧ valueVariable.value_type.isSome = true
    ∧ get_object_specifier (LibraryObject.foreign 1) (some "xdata")
        = .error "AssertionError" := by
  exact ⟨rfl, rfl, rfl⟩

end NionSwift
